import Mathlib

/-!
Verification of the Vulkan engine's device-selection and swapchain-negotiation
logic (`src/vk_engine.cpp`, `src/vk_engine.h`, `src/vk_utils.h`) against its
natural-language specification.

The C++ code is shallowly embedded: Vulkan handle types become `Nat`, bit
flags queried from the driver become `Bool` fields, driver queries
(`vkGetPhysicalDeviceProperties`, `vkGetPhysicalDeviceSurfaceSupportKHR`,
`query_swapchain_support`, ...) become record fields of a candidate-device
value (the device as seen through the engine's single surface), and throwing
functions return `Except String`.  Each definition mirrors one function or
struct of the source, keeping its name.
-/

namespace VkEngine

/-! ## Data model (`vk_utils.h`) -/

/-- `QueueFamilyIndices` from `vk_utils.h`: three `std::optional<uint32_t>`
role indices. -/
structure QueueFamilyIndices where
  graphicsFamily : Option Nat
  presentationFamily : Option Nat
  transferFamily : Option Nat
deriving DecidableEq

/-- `QueueFamilyIndices::isComplete`: all three roles have a value. -/
def QueueFamilyIndices.isComplete (q : QueueFamilyIndices) : Bool :=
  q.graphicsFamily.isSome && q.presentationFamily.isSome && q.transferFamily.isSome

/-- The zero-initialized `QueueFamilyIndices{}` value. -/
def emptyIndices : QueueFamilyIndices :=
  { graphicsFamily := none, presentationFamily := none, transferFamily := none }

/-- One `VkQueueFamilyProperties` entry, as the selection code reads it:
`queueFlags & VK_QUEUE_GRAPHICS_BIT`, `queueFlags & VK_QUEUE_TRANSFER_BIT`,
and the per-family result of `vkGetPhysicalDeviceSurfaceSupportKHR` on the
engine's surface. -/
structure QueueFamilyProps where
  graphicsBit : Bool
  transferBit : Bool
  presentationSupport : Bool
deriving DecidableEq

/-! ## `find_required_queue_families` (vk_engine.cpp lines 516-568)

The loop body at one family `f` with index `i`, acting on the accumulated
`indices`; the three role updates are exactly the source's three guarded
assignments. -/

/-- Body of the scan loop of `find_required_queue_families` for one queue
family. -/
def queue_scan_body (findDedicatedTransferFamily : Bool) (f : QueueFamilyProps)
    (i : Nat) (indices : QueueFamilyIndices) : QueueFamilyIndices :=
  let indices :=
    if indices.graphicsFamily.isNone && f.graphicsBit then
      { indices with graphicsFamily := some i }
    else indices
  let indices :=
    if indices.presentationFamily.isNone && f.presentationSupport then
      { indices with presentationFamily := some i }
    else indices
  if !findDedicatedTransferFamily then
    if indices.transferFamily.isNone && f.transferBit then
      { indices with transferFamily := some i }
    else indices
  else
    if f.transferBit && !f.graphicsBit then
      { indices with transferFamily := some i }
    else indices

/-- The scan loop of `find_required_queue_families`: left-to-right over the
queue families, with the source's `if (indices.isComplete()) break;`. -/
def queue_scan : List QueueFamilyProps → Bool → Nat → QueueFamilyIndices → QueueFamilyIndices
  | [], _, _, indices => indices
  | f :: rest, dedicated, i, indices =>
    let indices := queue_scan_body dedicated f i indices
    if indices.isComplete then indices
    else queue_scan rest dedicated (i + 1) indices

/-- `VulkanEngine::find_required_queue_families`: run the scan from the
zero-initialized indices, then apply the post-loop dedicated-transfer
fallback to the graphics family. -/
def find_required_queue_families (queueFamilyProperties : List QueueFamilyProps)
    (findDedicatedTransferFamily : Bool) : QueueFamilyIndices :=
  let indices := queue_scan queueFamilyProperties findDedicatedTransferFamily 0 emptyIndices
  if findDedicatedTransferFamily && indices.transferFamily.isNone then
    { indices with transferFamily := indices.graphicsFamily }
  else indices

/-- Instrumented variant of `queue_scan` that additionally counts how many
queue families the loop examines before returning (`break` included). Its
first component agrees with `queue_scan` (`queue_scan_steps_fst`). -/
def queue_scan_steps : List QueueFamilyProps → Bool → Nat → QueueFamilyIndices →
    QueueFamilyIndices × Nat
  | [], _, _, indices => (indices, 0)
  | f :: rest, dedicated, i, indices =>
    let indices := queue_scan_body dedicated f i indices
    if indices.isComplete then (indices, 1)
    else
      let r := queue_scan_steps rest dedicated (i + 1) indices
      (r.1, r.2 + 1)

/-! Specification-side helpers for stating what each role receives. -/

/-- Index (offset by `i`) of the first element of the list satisfying `p`. -/
def firstMatchIdxFrom (p : α → Bool) (i : Nat) : List α → Option Nat
  | [] => none
  | x :: rest => if p x then some i else firstMatchIdxFrom p (i + 1) rest

/-- Index (offset by `i`) of the last element of the list satisfying `p`. -/
def lastMatchIdxFrom (p : α → Bool) (i : Nat) : List α → Option Nat
  | [] => none
  | x :: rest =>
    match lastMatchIdxFrom p (i + 1) rest with
    | some j => some j
    | none => if p x then some i else none

/-- Left-biased choice on optional indices. -/
def orElseO (a b : Option Nat) : Option Nat :=
  match a with
  | some x => some x
  | none => b

def graphicsPred (f : QueueFamilyProps) : Bool := f.graphicsBit

def presentationPred (f : QueueFamilyProps) : Bool := f.presentationSupport

def transferPred (f : QueueFamilyProps) : Bool := f.transferBit

def dedicatedTransferPred (f : QueueFamilyProps) : Bool :=
  f.transferBit && !f.graphicsBit

/-! ## Claims C4 and C5: behaviour of `find_required_queue_families` -/

/-- Concrete family list for claim C4: a dedicated-transfer-only family,
then a family with graphics + presentation + transfer, then another
dedicated-transfer-only family. -/
def c4cexFams : List QueueFamilyProps :=
  [{ graphicsBit := false, transferBit := true, presentationSupport := false },
   { graphicsBit := true, transferBit := true, presentationSupport := true },
   { graphicsBit := false, transferBit := true, presentationSupport := false }]

/-- Concrete family list for claim C5: two dedicated-transfer-only families
followed by a graphics + presentation + transfer family. -/
def c5cexFams : List QueueFamilyProps :=
  [{ graphicsBit := false, transferBit := true, presentationSupport := false },
   { graphicsBit := false, transferBit := true, presentationSupport := false },
   { graphicsBit := true, transferBit := true, presentationSupport := true }]

/-! ## Swapchain support data model (`vk_utils.h`, selection-relevant parts)

`VkSurfaceCapabilitiesKHR` is restricted to the fields the embedded code
reads (`minImageCount`, `maxImageCount`); the enums carry the constructors
the code compares against plus a generic numbered constructor for all other
driver-reported values. -/

inductive VkFormat
  | b8g8r8a8Unorm
  | r8g8b8a8Unorm
  | otherFormat (code : Nat)
deriving DecidableEq

inductive VkColorSpaceKHR
  | srgbNonlinear
  | otherColorSpace (code : Nat)
deriving DecidableEq

inductive VkPresentModeKHR
  | fifo
  | mailbox
  | immediate
  | otherMode (code : Nat)
deriving DecidableEq

structure VkSurfaceFormatKHR where
  format : VkFormat
  colorSpace : VkColorSpaceKHR
deriving DecidableEq

structure VkSurfaceCapabilitiesKHR where
  minImageCount : Nat
  maxImageCount : Nat
deriving DecidableEq

/-- `SwapChainSupportDetails` from `vk_utils.h`. -/
structure SwapChainSupportDetails where
  surfaceCapabilities : VkSurfaceCapabilitiesKHR
  surfaceFormats : List VkSurfaceFormatKHR
  presentationModes : List VkPresentModeKHR
deriving DecidableEq

/-- The zero-initialized `SwapChainSupportDetails{}` value used for the
loop-local variable in `select_vulkan_physical_device`. -/
def initSwapChainSupportDetails : SwapChainSupportDetails :=
  { surfaceCapabilities := { minImageCount := 0, maxImageCount := 0 },
    surfaceFormats := [], presentationModes := [] }

inductive VkPhysicalDeviceType
  | discreteGpu
  | integratedGpu
  | virtualGpu
  | cpu
  | otherType
deriving DecidableEq

/-- One candidate `VkPhysicalDevice`, bundling every driver answer the
selection loop queries for it: `vkGetPhysicalDeviceProperties` (apiVersion,
deviceType), `vkGetPhysicalDeviceFeatures2` (the four checked feature
booleans), `vkGetPhysicalDeviceQueueFamilyProperties` +
`vkGetPhysicalDeviceSurfaceSupportKHR` (queueFamilies),
`vkEnumerateDeviceExtensionProperties` (extensionNames) and
`query_swapchain_support` on the engine's surface (swapchainSupport). -/
structure PhysicalDevice where
  apiVersion : Nat
  deviceType : VkPhysicalDeviceType
  dynamicRendering : Bool
  synchronization2 : Bool
  bufferDeviceAddress : Bool
  descriptorIndexing : Bool
  queueFamilies : List QueueFamilyProps
  extensionNames : List String
  swapchainSupport : SwapChainSupportDetails
deriving DecidableEq

/-! ## Vulkan version macros (`vulkan_core.h`), on the packed 32-bit value -/

def VK_VERSION_MAJOR (version : Nat) : Nat := (version % 4294967296) >>> 22

def VK_VERSION_MINOR (version : Nat) : Nat := ((version % 4294967296) >>> 12) % 1024

def VK_MAKE_VERSION (major minor patch : Nat) : Nat :=
  ((major <<< 22) ||| (minor <<< 12) ||| patch) % 4294967296

/-! ## Helper functions of the selector (`vk_engine.cpp`) -/

/-- Engine constant `m_useDedicatedTransferQueueFamily` (vk_engine.h line 52). -/
def m_useDedicatedTransferQueueFamily : Bool := false

/-- Engine constant `m_requiredPhysicalDeviceExtensions` (vk_engine.h lines
41-43): just `VK_KHR_SWAPCHAIN_EXTENSION_NAME`. -/
def m_requiredPhysicalDeviceExtensions : List String := ["VK_KHR_swapchain"]

/-- `VulkanEngine::check_physical_device_supports_required_extensions`
(vk_engine.cpp lines 570-585): erase every available extension name from the
required set and check that nothing is left — i.e. every required name
appears among the available ones. -/
def check_physical_device_supports_required_extensions
    (availableExtensions requiredDeviceExtensions : List String) : Bool :=
  requiredDeviceExtensions.all (fun required => availableExtensions.contains required)

/-- `VulkanEngine::query_swapchain_support` (vk_engine.cpp lines 590-609):
the three surface queries for the device/surface pair, recorded in the
candidate model. -/
def query_swapchain_support (physicalDevice : PhysicalDevice) : SwapChainSupportDetails :=
  physicalDevice.swapchainSupport

/-- The API-version hard filter (vk_engine.cpp line 265): the candidate is
dropped when `VK_VERSION_MAJOR(apiVersion) < 1 || VK_VERSION_MINOR(apiVersion) < 3`.
This function returns true when the candidate passes. -/
def passes_api_version_filter (apiVersion : Nat) : Bool :=
  !(decide (VK_VERSION_MAJOR apiVersion < 1) || decide (VK_VERSION_MINOR apiVersion < 3))

/-- The feature hard filter (vk_engine.cpp lines 269-275): the candidate
passes when the Vulkan 1.3 features `dynamicRendering`, `synchronization2`
and the Vulkan 1.2 features `bufferDeviceAddress`, `descriptorIndexing` are
all reported true. -/
def passes_required_features_filter (d : PhysicalDevice) : Bool :=
  (d.dynamicRendering && d.synchronization2) && (d.bufferDeviceAddress && d.descriptorIndexing)

/-- The scoring step (vk_engine.cpp lines 292-296): rank starts at 0 and a
discrete GPU adds 100. -/
def device_rank (d : PhysicalDevice) : Int :=
  if d.deviceType = VkPhysicalDeviceType.discreteGpu then (0 : Int) + 100 else 0

/-- Insertion into `std::multimap<int, VkPhysicalDevice, std::greater<>>`:
keys kept in descending order; an element with a key equal to existing keys
is inserted after them (C++ multimap insertion goes to the upper bound of
the equal range, preserving insertion order among equal keys). -/
def multimap_insert_desc (key : Int) (dev : PhysicalDevice) :
    List (Int × PhysicalDevice) → List (Int × PhysicalDevice)
  | [] => [(key, dev)]
  | (k, d) :: rest =>
    if k < key then (key, dev) :: (k, d) :: rest
    else (k, d) :: multimap_insert_desc key dev rest

/-- The loop-carried state of `select_vulkan_physical_device`: the rankings
multimap and the two loop-local variables declared OUTSIDE the loop
(vk_engine.cpp lines 258-260) and overwritten per candidate. -/
structure SelectScanState where
  physicalDeviceRankings : List (Int × PhysicalDevice)
  queueFamilyIndices : QueueFamilyIndices
  swapchainSupportDetails : SwapChainSupportDetails
deriving DecidableEq

def initSelectScanState : SelectScanState :=
  { physicalDeviceRankings := [],
    queueFamilyIndices := emptyIndices,
    swapchainSupportDetails := initSwapChainSupportDetails }

/-- The candidate loop of `select_vulkan_physical_device` (vk_engine.cpp
lines 261-301): the five staged hard filters (`continue` on failure), the
assignments to the loop-local `queueFamilyIndices` and
`swapchainSupportDetails` (which happen BEFORE the corresponding filter
checks), and the ranked insertion of survivors. -/
def select_scan : List PhysicalDevice → SelectScanState → SelectScanState
  | [], st => st
  | d :: rest, st =>
    if !passes_api_version_filter d.apiVersion then select_scan rest st
    else if !passes_required_features_filter d then select_scan rest st
    else
      let queueFamilyIndices :=
        find_required_queue_families d.queueFamilies m_useDedicatedTransferQueueFamily
      let st := { st with queueFamilyIndices := queueFamilyIndices }
      if !queueFamilyIndices.isComplete then select_scan rest st
      else if !check_physical_device_supports_required_extensions d.extensionNames
          m_requiredPhysicalDeviceExtensions then select_scan rest st
      else
        let swapchainSupportDetails := query_swapchain_support d
        let st := { st with swapchainSupportDetails := swapchainSupportDetails }
        if swapchainSupportDetails.surfaceFormats.isEmpty
            || swapchainSupportDetails.presentationModes.isEmpty then select_scan rest st
        else
          select_scan rest
            { st with physicalDeviceRankings :=
                multimap_insert_desc (device_rank d) d st.physicalDeviceRankings }

/-- The outcome of `select_vulkan_physical_device`: the member fields it
assigns (`m_vulkanPhysicalDevice`, `m_queueFamilyIndices`,
`m_swapChainSupportDetails`). -/
structure DeviceSelection where
  physicalDevice : PhysicalDevice
  queueFamilyIndices : QueueFamilyIndices
  swapChainSupportDetails : SwapChainSupportDetails
deriving DecidableEq

/-- `VulkanEngine::select_vulkan_physical_device` (vk_engine.cpp lines
235-350): run the candidate loop, throw if the rankings are empty, else
select the first entry of the rankings (highest score) and store the
loop-local queue-family indices and swapchain-support snapshot. -/
def select_vulkan_physical_device (availablePhysicalDevices : List PhysicalDevice) :
    Except String DeviceSelection :=
  let st := select_scan availablePhysicalDevices initSelectScanState
  match st.physicalDeviceRankings with
  | [] => Except.error "RUNTIME ERROR: Failed to find a suitable Physical Device!"
  | (_, d) :: _ =>
    Except.ok
      { physicalDevice := d,
        queueFamilyIndices := st.queueFamilyIndices,
        swapChainSupportDetails := st.swapchainSupportDetails }

/-- The conjunction of the five hard filters: a candidate survives filtering
iff this holds. -/
def suitable_physical_device (d : PhysicalDevice) : Bool :=
  passes_api_version_filter d.apiVersion
  && passes_required_features_filter d
  && (find_required_queue_families d.queueFamilies m_useDedicatedTransferQueueFamily).isComplete
  && check_physical_device_supports_required_extensions d.extensionNames
      m_requiredPhysicalDeviceExtensions
  && !(query_swapchain_support d).surfaceFormats.isEmpty
  && !(query_swapchain_support d).presentationModes.isEmpty

/-- The (score, device) pairs the loop inserts, in enumeration order. -/
def survivor_entries (devices : List PhysicalDevice) : List (Int × PhysicalDevice) :=
  (devices.filter suitable_physical_device).map (fun d => (device_rank d, d))

/-- Folding the multimap insertions of a list of entries into an
accumulator, left to right. -/
def rankings_fold : List (Int × PhysicalDevice) → List (Int × PhysicalDevice) →
    List (Int × PhysicalDevice)
  | [], acc => acc
  | e :: rest, acc => rankings_fold rest (multimap_insert_desc e.1 e.2 acc)

/-! Head characterization of the rankings multimap: the first entry is the
earliest-inserted entry with the maximal key. -/

/-- Of two entries, the one with the strictly larger key; ties keep the
left (earlier) one. -/
def rank_better (a b : Int × PhysicalDevice) : Int × PhysicalDevice :=
  if a.1 < b.1 then b else a

def rank_obetter : Option (Int × PhysicalDevice) → Option (Int × PhysicalDevice) →
    Option (Int × PhysicalDevice)
  | none, y => y
  | some a, none => some a
  | some a, some b => some (rank_better a b)

/-- The earliest entry with maximal key, if any. -/
def firstMaxEntry : List (Int × PhysicalDevice) → Option (Int × PhysicalDevice)
  | [] => none
  | e :: rest => rank_obetter (some e) (firstMaxEntry rest)

/-- A device failing exactly one hard filter (the dynamic-rendering feature
flag is false, everything else satisfied). -/
def c2BadDevice : PhysicalDevice :=
  { apiVersion := VK_MAKE_VERSION 1 3 0,
    deviceType := VkPhysicalDeviceType.discreteGpu,
    dynamicRendering := false,
    synchronization2 := true,
    bufferDeviceAddress := true,
    descriptorIndexing := true,
    queueFamilies := [{ graphicsBit := true, transferBit := true, presentationSupport := true }],
    extensionNames := ["VK_KHR_swapchain"],
    swapchainSupport :=
      { surfaceCapabilities := { minImageCount := 2, maxImageCount := 8 },
        surfaceFormats := [{ format := VkFormat.b8g8r8a8Unorm,
                             colorSpace := VkColorSpaceKHR.srgbNonlinear }],
        presentationModes := [VkPresentModeKHR.fifo] } }

/-! ## Claim C1: which candidate's details are stored with the selection -/

/-- A fully suitable discrete GPU whose single queue family covers all
roles. -/
def c1DeviceA : PhysicalDevice :=
  { apiVersion := VK_MAKE_VERSION 1 3 0,
    deviceType := VkPhysicalDeviceType.discreteGpu,
    dynamicRendering := true,
    synchronization2 := true,
    bufferDeviceAddress := true,
    descriptorIndexing := true,
    queueFamilies := [{ graphicsBit := true, transferBit := true, presentationSupport := true }],
    extensionNames := ["VK_KHR_swapchain"],
    swapchainSupport :=
      { surfaceCapabilities := { minImageCount := 2, maxImageCount := 8 },
        surfaceFormats := [{ format := VkFormat.b8g8r8a8Unorm,
                             colorSpace := VkColorSpaceKHR.srgbNonlinear }],
        presentationModes := [VkPresentModeKHR.fifo] } }

/-- A fully suitable integrated GPU enumerated after `c1DeviceA`, with
different queue-family layout and a different surface snapshot. -/
def c1DeviceB : PhysicalDevice :=
  { apiVersion := VK_MAKE_VERSION 1 3 0,
    deviceType := VkPhysicalDeviceType.integratedGpu,
    dynamicRendering := true,
    synchronization2 := true,
    bufferDeviceAddress := true,
    descriptorIndexing := true,
    queueFamilies := [{ graphicsBit := false, transferBit := true, presentationSupport := true },
                      { graphicsBit := true, transferBit := true, presentationSupport := true }],
    extensionNames := ["VK_KHR_swapchain"],
    swapchainSupport :=
      { surfaceCapabilities := { minImageCount := 3, maxImageCount := 9 },
        surfaceFormats := [{ format := VkFormat.r8g8b8a8Unorm,
                             colorSpace := VkColorSpaceKHR.srgbNonlinear }],
        presentationModes := [VkPresentModeKHR.fifo, VkPresentModeKHR.mailbox] } }

/-! ## Claim C3: the API-version hard filter at a cross-major boundary -/

/-- A device identical to a fully suitable one except that it reports API
version 2.0.0 — above the 1.3 floor under proper version ordering. -/
def c3Device : PhysicalDevice :=
  { apiVersion := VK_MAKE_VERSION 2 0 0,
    deviceType := VkPhysicalDeviceType.discreteGpu,
    dynamicRendering := true,
    synchronization2 := true,
    bufferDeviceAddress := true,
    descriptorIndexing := true,
    queueFamilies := [{ graphicsBit := true, transferBit := true, presentationSupport := true }],
    extensionNames := ["VK_KHR_swapchain"],
    swapchainSupport :=
      { surfaceCapabilities := { minImageCount := 2, maxImageCount := 8 },
        surfaceFormats := [{ format := VkFormat.b8g8r8a8Unorm,
                             colorSpace := VkColorSpaceKHR.srgbNonlinear }],
        presentationModes := [VkPresentModeKHR.fifo] } }

/-! ## Swapchain negotiation helpers (claims C7, C8, C9) -/

/-- The preferred surface format of `choose_swapchain_surface_format`:
`VK_FORMAT_B8G8R8A8_UNORM` with `VK_COLORSPACE_SRGB_NONLINEAR_KHR`. -/
def preferred_surface_format : VkSurfaceFormatKHR :=
  { format := VkFormat.b8g8r8a8Unorm, colorSpace := VkColorSpaceKHR.srgbNonlinear }

/-- The search loop of `choose_swapchain_surface_format` (vk_engine.cpp
lines 612-616): return the first format equal to 8-bit BGRA with sRGB
non-linear color space, if any. -/
def surface_format_scan : List VkSurfaceFormatKHR → Option VkSurfaceFormatKHR
  | [] => none
  | sf :: rest =>
    if sf.format == VkFormat.b8g8r8a8Unorm && sf.colorSpace == VkColorSpaceKHR.srgbNonlinear
    then some sf
    else surface_format_scan rest

/-- `VulkanEngine::choose_swapchain_surface_format` (vk_engine.cpp lines
611-618): the preferred format if found, otherwise `surfaceFormats.at(0)`,
which throws `std::out_of_range` on an empty vector. -/
def choose_swapchain_surface_format (surfaceFormats : List VkSurfaceFormatKHR) :
    Except String VkSurfaceFormatKHR :=
  match surface_format_scan surfaceFormats with
  | some surfaceFormat => Except.ok surfaceFormat
  | none =>
    match surfaceFormats with
    | [] => Except.error "std::out_of_range in vector::at"
    | first :: _ => Except.ok first

/-- The spec's two example format lists. -/
def c8ExampleA : List VkSurfaceFormatKHR :=
  [{ format := VkFormat.r8g8b8a8Unorm, colorSpace := VkColorSpaceKHR.srgbNonlinear },
   { format := VkFormat.b8g8r8a8Unorm, colorSpace := VkColorSpaceKHR.srgbNonlinear }]

def c8ExampleB : List VkSurfaceFormatKHR :=
  [{ format := VkFormat.r8g8b8a8Unorm, colorSpace := VkColorSpaceKHR.srgbNonlinear }]

/-! ## Claim C9: the empty-list fallback throw and its reachability -/

/-- A fully suitable integrated GPU. -/
def c9DeviceA : PhysicalDevice :=
  { apiVersion := VK_MAKE_VERSION 1 3 0,
    deviceType := VkPhysicalDeviceType.integratedGpu,
    dynamicRendering := true,
    synchronization2 := true,
    bufferDeviceAddress := true,
    descriptorIndexing := true,
    queueFamilies := [{ graphicsBit := true, transferBit := true, presentationSupport := true }],
    extensionNames := ["VK_KHR_swapchain"],
    swapchainSupport :=
      { surfaceCapabilities := { minImageCount := 2, maxImageCount := 8 },
        surfaceFormats := [{ format := VkFormat.b8g8r8a8Unorm,
                             colorSpace := VkColorSpaceKHR.srgbNonlinear }],
        presentationModes := [VkPresentModeKHR.fifo] } }

/-- A candidate enumerated after `c9DeviceA` that passes the first four hard
filters but reports ZERO surface formats, so it fails the surface-adequacy
filter — after having already overwritten the loop-local snapshot. -/
def c9DeviceB : PhysicalDevice :=
  { apiVersion := VK_MAKE_VERSION 1 3 0,
    deviceType := VkPhysicalDeviceType.integratedGpu,
    dynamicRendering := true,
    synchronization2 := true,
    bufferDeviceAddress := true,
    descriptorIndexing := true,
    queueFamilies := [{ graphicsBit := true, transferBit := true, presentationSupport := true }],
    extensionNames := ["VK_KHR_swapchain"],
    swapchainSupport :=
      { surfaceCapabilities := { minImageCount := 2, maxImageCount := 8 },
        surfaceFormats := [],
        presentationModes := [VkPresentModeKHR.fifo] } }

/-! ## Claim C7: the swapchain image count -/

/-- `std::clamp(v, lo, hi)` as defined by the C++ standard's reference
implementation; its precondition is `lo <= hi` (behaviour is undefined
otherwise). -/
def std_clamp (v lo hi : Nat) : Nat :=
  if v < lo then lo else if hi < v then hi else v

/-- The image-count computation of `create_vulkan_swapchain` (vk_engine.cpp
lines 428-432): `std::clamp(minImageCount + 1, minImageCount,
maxImageCount)` on `uint32_t` values. -/
def swapchain_image_count (surfaceCapabilities : VkSurfaceCapabilitiesKHR) : Nat :=
  std_clamp ((surfaceCapabilities.minImageCount + 1) % 4294967296)
    surfaceCapabilities.minImageCount surfaceCapabilities.maxImageCount

/-! ## Claim C10: `cleanup` on an engine whose init did not complete -/

/-- One resource-destroying call `cleanup` can make, tagged with the handle
it destroys. -/
inductive CleanupAction
  | deviceWaitIdle (device : Nat)
  | destroyImageView (handle : Nat)
  | destroySwapchain (handle : Nat)
  | destroyCommandPool (handle : Nat)
  | destroyDevice (handle : Nat)
  | destroySurface (handle : Nat)
  | destroyDebugMessenger (handle : Nat)
  | destroyInstance (handle : Nat)
  | destroyWindow (handle : Nat)
deriving DecidableEq

/-- The `VulkanEngine` member fields `cleanup` touches or destroys
(vk_engine.h); handles are modelled as `Nat`. -/
structure VulkanEngineState where
  m_isInitialized : Bool
  m_useValidationLayers : Bool
  m_window : Nat
  m_vulkanInstance : Nat
  m_vulkanSurface : Nat
  m_vulkanDebugMessenger : Nat
  m_vulkanPhysicalDevice : Nat
  m_vulkanLogicalDevice : Nat
  m_vulkanSwapchainKHR : Nat
  m_swapchainImageViews : List Nat
  m_frameCommandPools : List Nat
deriving DecidableEq

/-- The process state: the engine object plus the process-wide singleton
pointer `loadedEngine` (held = true, null = false). -/
structure EngineProcess where
  engine : VulkanEngineState
  loadedEngine : Bool
deriving DecidableEq

/-- `VulkanEngine::cleanup_swapchain` (vk_engine.cpp lines 748-754): destroy
every swapchain image view, then the swapchain. -/
def cleanup_swapchain_actions (e : VulkanEngineState) : List CleanupAction :=
  (e.m_swapchainImageViews.map CleanupAction.destroyImageView)
    ++ [CleanupAction.destroySwapchain e.m_vulkanSwapchainKHR]

/-- `VulkanEngine::cleanup_command_pools` (vk_engine.cpp lines 756-761):
destroy each frame's command pool. -/
def cleanup_command_pools_actions (e : VulkanEngineState) : List CleanupAction :=
  e.m_frameCommandPools.map CleanupAction.destroyCommandPool

/-- `VulkanEngine::cleanup` (vk_engine.cpp lines 60-77): when
`m_isInitialized`, wait for the device and destroy everything in reverse
construction order (debug messenger only under validation layers); in every
case, finally null the `loadedEngine` singleton pointer. Returns the new
process state and the list of destroying calls made, in order; member
fields are never reassigned. -/
def cleanup (p : EngineProcess) : EngineProcess × List CleanupAction :=
  let actions :=
    if p.engine.m_isInitialized then
      [CleanupAction.deviceWaitIdle p.engine.m_vulkanLogicalDevice]
        ++ cleanup_swapchain_actions p.engine
        ++ cleanup_command_pools_actions p.engine
        ++ [CleanupAction.destroyDevice p.engine.m_vulkanLogicalDevice,
            CleanupAction.destroySurface p.engine.m_vulkanSurface]
        ++ (if p.engine.m_useValidationLayers
            then [CleanupAction.destroyDebugMessenger p.engine.m_vulkanDebugMessenger]
            else [])
        ++ [CleanupAction.destroyInstance p.engine.m_vulkanInstance,
            CleanupAction.destroyWindow p.engine.m_window]
    else []
  ({ engine := p.engine, loadedEngine := false }, actions)

/-- A process whose engine holds live-looking handles but never finished
`init`. -/
def c10Process : EngineProcess :=
  { engine :=
      { m_isInitialized := false,
        m_useValidationLayers := true,
        m_window := 11,
        m_vulkanInstance := 12,
        m_vulkanSurface := 13,
        m_vulkanDebugMessenger := 14,
        m_vulkanPhysicalDevice := 15,
        m_vulkanLogicalDevice := 16,
        m_vulkanSwapchainKHR := 17,
        m_swapchainImageViews := [21, 22, 23],
        m_frameCommandPools := [31, 32] },
    loadedEngine := true }

/-- Two equally-scored (integrated, score 0) suitable devices for the
tie-break witness. -/
def c6DeviceA : PhysicalDevice :=
  { apiVersion := VK_MAKE_VERSION 1 3 0,
    deviceType := VkPhysicalDeviceType.integratedGpu,
    dynamicRendering := true,
    synchronization2 := true,
    bufferDeviceAddress := true,
    descriptorIndexing := true,
    queueFamilies := [{ graphicsBit := true, transferBit := true, presentationSupport := true }],
    extensionNames := ["VK_KHR_swapchain"],
    swapchainSupport :=
      { surfaceCapabilities := { minImageCount := 2, maxImageCount := 4 },
        surfaceFormats := [{ format := VkFormat.b8g8r8a8Unorm,
                             colorSpace := VkColorSpaceKHR.srgbNonlinear }],
        presentationModes := [VkPresentModeKHR.fifo] } }

def c6DeviceB : PhysicalDevice :=
  { apiVersion := VK_MAKE_VERSION 1 3 0,
    deviceType := VkPhysicalDeviceType.integratedGpu,
    dynamicRendering := true,
    synchronization2 := true,
    bufferDeviceAddress := true,
    descriptorIndexing := true,
    queueFamilies := [{ graphicsBit := true, transferBit := true, presentationSupport := true }],
    extensionNames := ["VK_KHR_swapchain"],
    swapchainSupport :=
      { surfaceCapabilities := { minImageCount := 2, maxImageCount := 5 },
        surfaceFormats := [{ format := VkFormat.b8g8r8a8Unorm,
                             colorSpace := VkColorSpaceKHR.srgbNonlinear }],
        presentationModes := [VkPresentModeKHR.fifo] } }

/-! ## Theorems -/

/-! Basic lemmas about the scan. -/

theorem orElseO_none_right (a : Option Nat) : orElseO a none = a := by
  cases a <;> rfl

theorem queue_scan_steps_fst (fams : List QueueFamilyProps) (b : Bool) :
    ∀ (i : Nat) (st : QueueFamilyIndices),
      (queue_scan_steps fams b i st).1 = queue_scan fams b i st := by
  induction fams with
  | nil => intro i st; rfl
  | cons f rest ih =>
    intro i st
    simp only [queue_scan_steps, queue_scan]
    by_cases h : (queue_scan_body b f i st).isComplete = true
    · simp [h]
    · simp only [Bool.not_eq_true] at h
      simp [h, ih]

theorem queue_scan_body_graphics (b : Bool) (f : QueueFamilyProps) (i : Nat)
    (st : QueueFamilyIndices) :
    (queue_scan_body b f i st).graphicsFamily =
      (if st.graphicsFamily.isNone && f.graphicsBit then some i else st.graphicsFamily) := by
  simp only [queue_scan_body]
  split_ifs <;> simp_all

theorem queue_scan_body_presentation (b : Bool) (f : QueueFamilyProps) (i : Nat)
    (st : QueueFamilyIndices) :
    (queue_scan_body b f i st).presentationFamily =
      (if st.presentationFamily.isNone && f.presentationSupport then some i
        else st.presentationFamily) := by
  simp only [queue_scan_body]
  split_ifs <;> simp_all

theorem queue_scan_body_transfer_nondedicated (f : QueueFamilyProps) (i : Nat)
    (st : QueueFamilyIndices) :
    (queue_scan_body false f i st).transferFamily =
      (if st.transferFamily.isNone && f.transferBit then some i else st.transferFamily) := by
  simp only [queue_scan_body]
  split_ifs <;> simp_all

theorem queue_scan_body_transfer_dedicated (f : QueueFamilyProps) (i : Nat)
    (st : QueueFamilyIndices) :
    (queue_scan_body true f i st).transferFamily =
      (if f.transferBit && !f.graphicsBit then some i else st.transferFamily) := by
  simp only [queue_scan_body]
  split_ifs <;> simp_all

theorem queue_scan_steps_graphics (b : Bool) :
    ∀ (fams : List QueueFamilyProps) (i : Nat) (st : QueueFamilyIndices),
      (queue_scan_steps fams b i st).1.graphicsFamily
        = orElseO st.graphicsFamily
            (firstMatchIdxFrom graphicsPred i (fams.take (queue_scan_steps fams b i st).2)) := by
  intro fams
  induction fams with
  | nil =>
    intro i st
    simp [queue_scan_steps, firstMatchIdxFrom, orElseO_none_right]
  | cons f rest ih =>
    intro i st
    simp only [queue_scan_steps]
    by_cases h1 : (queue_scan_body b f i st).isComplete = true
    · simp only [h1, if_true]
      rw [queue_scan_body_graphics]
      cases hg : st.graphicsFamily <;> cases hfb : f.graphicsBit <;>
        simp [orElseO, firstMatchIdxFrom, graphicsPred, hfb]
    · simp only [h1, if_false, Bool.not_eq_true] at *
      simp only [h1, Bool.false_eq_true, if_false]
      rw [ih, queue_scan_body_graphics]
      cases hg : st.graphicsFamily <;> cases hfb : f.graphicsBit <;>
        simp [orElseO, firstMatchIdxFrom, graphicsPred, hfb, List.take_succ_cons]

theorem queue_scan_steps_presentation (b : Bool) :
    ∀ (fams : List QueueFamilyProps) (i : Nat) (st : QueueFamilyIndices),
      (queue_scan_steps fams b i st).1.presentationFamily
        = orElseO st.presentationFamily
            (firstMatchIdxFrom presentationPred i (fams.take (queue_scan_steps fams b i st).2)) := by
  intro fams
  induction fams with
  | nil =>
    intro i st
    simp [queue_scan_steps, firstMatchIdxFrom, orElseO_none_right]
  | cons f rest ih =>
    intro i st
    simp only [queue_scan_steps]
    by_cases h1 : (queue_scan_body b f i st).isComplete = true
    · simp only [h1, if_true]
      rw [queue_scan_body_presentation]
      cases hg : st.presentationFamily <;> cases hfb : f.presentationSupport <;>
        simp [orElseO, firstMatchIdxFrom, presentationPred, hfb]
    · simp only [h1, if_false, Bool.not_eq_true] at *
      simp only [h1, Bool.false_eq_true, if_false]
      rw [ih, queue_scan_body_presentation]
      cases hg : st.presentationFamily <;> cases hfb : f.presentationSupport <;>
        simp [orElseO, firstMatchIdxFrom, presentationPred, hfb, List.take_succ_cons]

theorem queue_scan_steps_transfer_nondedicated :
    ∀ (fams : List QueueFamilyProps) (i : Nat) (st : QueueFamilyIndices),
      (queue_scan_steps fams false i st).1.transferFamily
        = orElseO st.transferFamily
            (firstMatchIdxFrom transferPred i (fams.take (queue_scan_steps fams false i st).2)) := by
  intro fams
  induction fams with
  | nil =>
    intro i st
    simp [queue_scan_steps, firstMatchIdxFrom, orElseO_none_right]
  | cons f rest ih =>
    intro i st
    simp only [queue_scan_steps]
    by_cases h1 : (queue_scan_body false f i st).isComplete = true
    · simp only [h1, if_true]
      rw [queue_scan_body_transfer_nondedicated]
      cases hg : st.transferFamily <;> cases hfb : f.transferBit <;>
        simp [orElseO, firstMatchIdxFrom, transferPred, hfb]
    · simp only [h1, if_false, Bool.not_eq_true] at *
      simp only [h1, Bool.false_eq_true, if_false]
      rw [ih, queue_scan_body_transfer_nondedicated]
      cases hg : st.transferFamily <;> cases hfb : f.transferBit <;>
        simp [orElseO, firstMatchIdxFrom, transferPred, hfb, List.take_succ_cons]

theorem queue_scan_steps_transfer_dedicated :
    ∀ (fams : List QueueFamilyProps) (i : Nat) (st : QueueFamilyIndices),
      (queue_scan_steps fams true i st).1.transferFamily
        = orElseO
            (lastMatchIdxFrom dedicatedTransferPred i (fams.take (queue_scan_steps fams true i st).2))
            st.transferFamily := by
  intro fams
  induction fams with
  | nil =>
    intro i st
    simp [queue_scan_steps, lastMatchIdxFrom, orElseO]
  | cons f rest ih =>
    intro i st
    simp only [queue_scan_steps]
    by_cases h1 : (queue_scan_body true f i st).isComplete = true
    · simp only [h1, if_true]
      rw [queue_scan_body_transfer_dedicated]
      by_cases hd : (f.transferBit && !f.graphicsBit) = true <;>
        simp [orElseO, lastMatchIdxFrom, dedicatedTransferPred, hd]
    · simp only [h1, if_false, Bool.not_eq_true] at *
      simp only [h1, Bool.false_eq_true, if_false]
      rw [ih, queue_scan_body_transfer_dedicated]
      cases hl : lastMatchIdxFrom dedicatedTransferPred (i + 1)
          (rest.take (queue_scan_steps rest true (i + 1) (queue_scan_body true f i st)).2) with
      | some j =>
        simp [orElseO, lastMatchIdxFrom, dedicatedTransferPred, hl, List.take_succ_cons]
      | none =>
        by_cases hd : (f.transferBit && !f.graphicsBit) = true <;>
          simp [orElseO, lastMatchIdxFrom, dedicatedTransferPred, hd, hl, List.take_succ_cons]

theorem queue_scan_steps_le_length (b : Bool) :
    ∀ (fams : List QueueFamilyProps) (i : Nat) (st : QueueFamilyIndices),
      (queue_scan_steps fams b i st).2 ≤ fams.length := by
  intro fams
  induction fams with
  | nil => intro i st; simp [queue_scan_steps]
  | cons f rest ih =>
    intro i st
    simp only [queue_scan_steps]
    by_cases h1 : (queue_scan_body b f i st).isComplete = true
    · simp [h1, Nat.succ_le_succ, Nat.zero_le]
    · simp only [h1, if_false, Bool.not_eq_true] at *
      simp only [h1, Bool.false_eq_true, if_false, List.length_cons]
      exact Nat.succ_le_succ (ih _ _)

theorem queue_scan_steps_early_complete (b : Bool) :
    ∀ (fams : List QueueFamilyProps) (i : Nat) (st : QueueFamilyIndices),
      (queue_scan_steps fams b i st).2 < fams.length →
      (queue_scan_steps fams b i st).1.isComplete = true := by
  intro fams
  induction fams with
  | nil => intro i st h; simp [queue_scan_steps] at h
  | cons f rest ih =>
    intro i st
    simp only [queue_scan_steps]
    by_cases h1 : (queue_scan_body b f i st).isComplete = true
    · simp [h1]
    · simp only [h1, if_false, Bool.not_eq_true] at *
      simp only [h1, Bool.false_eq_true, if_false, List.length_cons]
      intro h
      exact ih _ _ (Nat.lt_of_succ_lt_succ h)

theorem queue_scan_steps_incomplete_full (b : Bool) :
    ∀ (fams : List QueueFamilyProps) (i : Nat) (st : QueueFamilyIndices),
      (queue_scan_steps fams b i st).1.isComplete = false →
      (queue_scan_steps fams b i st).2 = fams.length := by
  intro fams
  induction fams with
  | nil => intro i st _; simp [queue_scan_steps]
  | cons f rest ih =>
    intro i st
    simp only [queue_scan_steps]
    by_cases h1 : (queue_scan_body b f i st).isComplete = true
    · simp [h1]
    · simp only [h1, if_false, Bool.not_eq_true] at *
      simp only [h1, Bool.false_eq_true, if_false, List.length_cons]
      intro h
      exact congrArg Nat.succ (ih _ _ h)

theorem queue_scan_steps_prefix_incomplete (b : Bool) :
    ∀ (fams : List QueueFamilyProps) (i : Nat) (st : QueueFamilyIndices),
      st.isComplete = false →
      ∀ k, k < (queue_scan_steps fams b i st).2 →
        (queue_scan_steps (fams.take k) b i st).1.isComplete = false := by
  intro fams
  induction fams with
  | nil => intro i st hst k hk; simp [queue_scan_steps] at hk
  | cons f rest ih =>
    intro i st hst
    simp only [queue_scan_steps]
    by_cases h1 : (queue_scan_body b f i st).isComplete = true
    · simp only [h1, if_true]
      intro k hk
      have hk0 : k = 0 := Nat.lt_one_iff.mp hk
      subst hk0
      simpa [queue_scan_steps] using hst
    · rw [Bool.not_eq_true] at h1
      simp only [h1, Bool.false_eq_true, if_false]
      intro k hk
      cases k with
      | zero => simpa [queue_scan_steps] using hst
      | succ j =>
        have hj : j < (queue_scan_steps rest b (i + 1) (queue_scan_body b f i st)).2 :=
          Nat.lt_of_succ_lt_succ hk
        have := ih (i + 1) (queue_scan_body b f i st) h1 j hj
        simpa [queue_scan_steps, List.take_succ_cons, h1, Bool.false_eq_true] using this

theorem firstMatchIdxFrom_take (p : α → Bool) :
    ∀ (l : List α) (k i j : Nat),
      firstMatchIdxFrom p i (l.take k) = some j → firstMatchIdxFrom p i l = some j := by
  intro l
  induction l with
  | nil => intro k i j h; simp [List.take_nil, firstMatchIdxFrom] at h
  | cons x t ih =>
    intro k i j h
    cases k with
    | zero => simp [firstMatchIdxFrom] at h
    | succ m =>
      rw [List.take_succ_cons] at h
      by_cases hp : p x = true
      · simpa [firstMatchIdxFrom, hp] using h
      · simp only [Bool.not_eq_true] at hp
        simp only [firstMatchIdxFrom, hp, Bool.false_eq_true, if_false] at h ⊢
        exact ih m (i + 1) j h

/-- Claim C4, counterexample: with `wantDedicatedTransfer = true` the scan
stops after examining 2 of the 3 families (the `isComplete` early-exit fires
in dedicated mode too), so the scan does NOT examine all families; the third
family (a dedicated transfer family) is never seen and transfer stays at
index 0. -/
theorem c4_counterexample :
    (queue_scan_steps c4cexFams true 0 emptyIndices).2 = 2
    ∧ c4cexFams.length = 3
    ∧ find_required_queue_families c4cexFams true =
        { graphicsFamily := some 1, presentationFamily := some 1, transferFamily := some 0 } := by
  decide

/-- Claim C4 (amended): in BOTH modes (`wantDedicatedTransfer` false or
true) the scan of `find_required_queue_families` terminates early exactly
when all three roles become assigned mid-scan: the number of examined
families never exceeds the list length; stopping strictly early implies the
indices are complete; at every point before the stop the indices are still
incomplete (so the exit happens as soon as completeness is reached); and if
the scan result is incomplete, all families were examined. -/
theorem c4_scan_early_exit_in_both_modes (fams : List QueueFamilyProps) (b : Bool) :
    (queue_scan_steps fams b 0 emptyIndices).2 ≤ fams.length
    ∧ ((queue_scan_steps fams b 0 emptyIndices).2 < fams.length →
        (queue_scan fams b 0 emptyIndices).isComplete = true)
    ∧ ((queue_scan fams b 0 emptyIndices).isComplete = false →
        (queue_scan_steps fams b 0 emptyIndices).2 = fams.length)
    ∧ (∀ k, k < (queue_scan_steps fams b 0 emptyIndices).2 →
        (queue_scan (fams.take k) b 0 emptyIndices).isComplete = false) := by
  refine ⟨queue_scan_steps_le_length b fams 0 emptyIndices, ?_, ?_, ?_⟩
  · intro h
    rw [← queue_scan_steps_fst]
    exact queue_scan_steps_early_complete b fams 0 emptyIndices h
  · intro h
    rw [← queue_scan_steps_fst] at h
    exact queue_scan_steps_incomplete_full b fams 0 emptyIndices h
  · intro k hk
    rw [← queue_scan_steps_fst]
    exact queue_scan_steps_prefix_incomplete b fams 0 emptyIndices rfl k hk

/-- Witness for `c4_scan_early_exit_in_both_modes` at a concrete input in
dedicated mode: the scan stopped early (after 2 of 3 families) with complete
indices, and after only 1 family the indices were still incomplete. -/
theorem c4_witness :
    (queue_scan c4cexFams true 0 emptyIndices).isComplete = true
    ∧ (queue_scan (c4cexFams.take 1) true 0 emptyIndices).isComplete = false :=
  ⟨(c4_scan_early_exit_in_both_modes c4cexFams true).2.1 (by decide),
   (c4_scan_early_exit_in_both_modes c4cexFams true).2.2.2 1 (by decide)⟩

/-- Claim C5, counterexample: with `wantDedicatedTransfer = true` the
dedicated-transfer assignment is NOT first-match: the first family
satisfying transfer-and-not-graphics is index 0, but the unguarded
assignment overwrites on every match, so the code returns index 1 (the last
dedicated family seen before the scan stops). -/
theorem c5_counterexample :
    (find_required_queue_families c5cexFams true).transferFamily = some 1
    ∧ firstMatchIdxFrom dedicatedTransferPred 0 c5cexFams = some 0
    ∧ (some 1 : Option Nat) ≠ some 0 := by
  decide

/-- Claim C5 (amended): graphics and presentation always receive the FIRST
family index satisfying their predicate; with `wantDedicatedTransfer=false`
so does transfer; with `wantDedicatedTransfer=true` transfer receives the
LAST family index satisfying transfer-and-not-graphics among the families
the scan examined, falling back to the graphics family index (after the
scan, never mid-scan) when no such family was seen; and on the concrete
list family 0 = graphics+transfer, family 1 = presentation+transfer with
`wantDedicatedTransfer=false` the result is graphics=0, presentation=1,
transfer=0. -/
theorem c5_role_assignment (fams : List QueueFamilyProps) (b : Bool) :
    (find_required_queue_families fams b).graphicsFamily
        = firstMatchIdxFrom graphicsPred 0 fams
    ∧ (find_required_queue_families fams b).presentationFamily
        = firstMatchIdxFrom presentationPred 0 fams
    ∧ (b = false → (find_required_queue_families fams b).transferFamily
        = firstMatchIdxFrom transferPred 0 fams)
    ∧ (b = true → (find_required_queue_families fams b).transferFamily
        = orElseO
            (lastMatchIdxFrom dedicatedTransferPred 0
              (fams.take (queue_scan_steps fams b 0 emptyIndices).2))
            (firstMatchIdxFrom graphicsPred 0 fams))
    ∧ find_required_queue_families
        [{ graphicsBit := true, transferBit := true, presentationSupport := false },
         { graphicsBit := false, transferBit := true, presentationSupport := true }] false
      = { graphicsFamily := some 0, presentationFamily := some 1, transferFamily := some 0 } := by
  have hg : (queue_scan fams b 0 emptyIndices).graphicsFamily
      = firstMatchIdxFrom graphicsPred 0
          (fams.take (queue_scan_steps fams b 0 emptyIndices).2) := by
    rw [← queue_scan_steps_fst]
    simpa [emptyIndices, orElseO] using queue_scan_steps_graphics b fams 0 emptyIndices
  have hp : (queue_scan fams b 0 emptyIndices).presentationFamily
      = firstMatchIdxFrom presentationPred 0
          (fams.take (queue_scan_steps fams b 0 emptyIndices).2) := by
    rw [← queue_scan_steps_fst]
    simpa [emptyIndices, orElseO] using queue_scan_steps_presentation b fams 0 emptyIndices
  have hgfull : (queue_scan fams b 0 emptyIndices).graphicsFamily
      = firstMatchIdxFrom graphicsPred 0 fams := by
    cases hfg : firstMatchIdxFrom graphicsPred 0
        (fams.take (queue_scan_steps fams b 0 emptyIndices).2) with
    | some j =>
      rw [hg, hfg, firstMatchIdxFrom_take graphicsPred fams _ 0 j hfg]
    | none =>
      have hnone : (queue_scan fams b 0 emptyIndices).graphicsFamily = none := by rw [hg, hfg]
      have hinc : (queue_scan fams b 0 emptyIndices).isComplete = false := by
        simp [QueueFamilyIndices.isComplete, hnone]
      have hfull : (queue_scan_steps fams b 0 emptyIndices).2 = fams.length := by
        rw [← queue_scan_steps_fst] at hinc
        exact queue_scan_steps_incomplete_full b fams 0 emptyIndices hinc
      rw [hfull, List.take_length] at hfg
      rw [hnone, hfg]
  have hpfull : (queue_scan fams b 0 emptyIndices).presentationFamily
      = firstMatchIdxFrom presentationPred 0 fams := by
    cases hfp : firstMatchIdxFrom presentationPred 0
        (fams.take (queue_scan_steps fams b 0 emptyIndices).2) with
    | some j =>
      rw [hp, hfp, firstMatchIdxFrom_take presentationPred fams _ 0 j hfp]
    | none =>
      have hnone : (queue_scan fams b 0 emptyIndices).presentationFamily = none := by
        rw [hp, hfp]
      have hinc : (queue_scan fams b 0 emptyIndices).isComplete = false := by
        simp [QueueFamilyIndices.isComplete, hnone]
      have hfull : (queue_scan_steps fams b 0 emptyIndices).2 = fams.length := by
        rw [← queue_scan_steps_fst] at hinc
        exact queue_scan_steps_incomplete_full b fams 0 emptyIndices hinc
      rw [hfull, List.take_length] at hfp
      rw [hnone, hfp]
  refine ⟨?_, ?_, ?_, ?_, by decide⟩
  · simp only [find_required_queue_families]
    split <;> simp [hgfull]
  · simp only [find_required_queue_families]
    split <;> simp [hpfull]
  · intro hb
    subst hb
    have ht : (queue_scan fams false 0 emptyIndices).transferFamily
        = firstMatchIdxFrom transferPred 0
            (fams.take (queue_scan_steps fams false 0 emptyIndices).2) := by
      rw [← queue_scan_steps_fst]
      simpa [emptyIndices, orElseO] using queue_scan_steps_transfer_nondedicated fams 0 emptyIndices
    simp only [find_required_queue_families, Bool.false_and, Bool.false_eq_true, if_false]
    cases hft : firstMatchIdxFrom transferPred 0
        (fams.take (queue_scan_steps fams false 0 emptyIndices).2) with
    | some j =>
      rw [ht, hft, firstMatchIdxFrom_take transferPred fams _ 0 j hft]
    | none =>
      have hnone : (queue_scan fams false 0 emptyIndices).transferFamily = none := by
        rw [ht, hft]
      have hinc : (queue_scan fams false 0 emptyIndices).isComplete = false := by
        simp [QueueFamilyIndices.isComplete, hnone]
      have hfull : (queue_scan_steps fams false 0 emptyIndices).2 = fams.length := by
        rw [← queue_scan_steps_fst] at hinc
        exact queue_scan_steps_incomplete_full false fams 0 emptyIndices hinc
      rw [hfull, List.take_length] at hft
      rw [hnone, hft]
  · intro hb
    subst hb
    have ht : (queue_scan fams true 0 emptyIndices).transferFamily
        = lastMatchIdxFrom dedicatedTransferPred 0
            (fams.take (queue_scan_steps fams true 0 emptyIndices).2) := by
      rw [← queue_scan_steps_fst]
      simpa [emptyIndices, orElseO_none_right] using
        queue_scan_steps_transfer_dedicated fams 0 emptyIndices
    cases hld : lastMatchIdxFrom dedicatedTransferPred 0
        (fams.take (queue_scan_steps fams true 0 emptyIndices).2) with
    | some j =>
      have hsome : (queue_scan fams true 0 emptyIndices).transferFamily = some j := by
        rw [ht, hld]
      simp only [find_required_queue_families, hsome, Option.isNone_some, Bool.and_false,
        Bool.false_eq_true, if_false, orElseO]
    | none =>
      have hnone : (queue_scan fams true 0 emptyIndices).transferFamily = none := by
        rw [ht, hld]
      simp only [find_required_queue_families, hnone, Option.isNone_none, Bool.and_true,
        Bool.true_and, if_true, orElseO]
      exact hgfull

/-- Witness for `c5_role_assignment`, discharging its `b = false` hypothesis
at a concrete input: on `c5cexFams` in non-dedicated mode, transfer is the
first transfer-capable family. -/
theorem c5_witness :
    (find_required_queue_families c5cexFams false).transferFamily
      = firstMatchIdxFrom transferPred 0 c5cexFams :=
  (c5_role_assignment c5cexFams false).2.2.1 rfl

/-! Lemmas about the candidate loop. -/

theorem select_scan_rankings :
    ∀ (devices : List PhysicalDevice) (st : SelectScanState),
      (select_scan devices st).physicalDeviceRankings
        = rankings_fold (survivor_entries devices) st.physicalDeviceRankings := by
  intro devices
  induction devices with
  | nil => intro st; simp [select_scan, survivor_entries, rankings_fold]
  | cons d rest ih =>
    intro st
    simp only [select_scan]
    by_cases h1 : passes_api_version_filter d.apiVersion = true
    · simp only [h1, Bool.not_true, Bool.false_eq_true, if_false]
      by_cases h2 : passes_required_features_filter d = true
      · simp only [h2, Bool.not_true, Bool.false_eq_true, if_false]
        by_cases h3 : (find_required_queue_families d.queueFamilies
            m_useDedicatedTransferQueueFamily).isComplete = true
        · simp only [h3, Bool.not_true, Bool.false_eq_true, if_false]
          by_cases h4 : check_physical_device_supports_required_extensions d.extensionNames
              m_requiredPhysicalDeviceExtensions = true
          · simp only [h4, Bool.not_true, Bool.false_eq_true, if_false]
            by_cases h5 : ((query_swapchain_support d).surfaceFormats.isEmpty
                || (query_swapchain_support d).presentationModes.isEmpty) = true
            · have hsuit : suitable_physical_device d = false := by
                rcases Bool.or_eq_true_iff.mp h5 with h | h <;>
                  simp [suitable_physical_device, h]
              simp only [h5, if_true, ih]
              simp [survivor_entries, List.filter_cons, hsuit]
            · rw [Bool.not_eq_true] at h5
              have hsuit : suitable_physical_device d = true := by
                rcases Bool.or_eq_false_iff.mp h5 with ⟨ha, hb⟩
                simp [suitable_physical_device, h1, h2, h3, h4, ha, hb]
              simp only [h5, Bool.false_eq_true, if_false, ih]
              simp [survivor_entries, List.filter_cons, hsuit, rankings_fold]
          · rw [Bool.not_eq_true] at h4
            have hsuit : suitable_physical_device d = false := by
              simp [suitable_physical_device, h4]
            simp only [h4, Bool.not_false, if_true, ih]
            simp [survivor_entries, List.filter_cons, hsuit]
        · rw [Bool.not_eq_true] at h3
          have hsuit : suitable_physical_device d = false := by
            simp [suitable_physical_device, h3]
          simp only [h3, Bool.not_false, if_true, ih]
          simp [survivor_entries, List.filter_cons, hsuit]
      · rw [Bool.not_eq_true] at h2
        have hsuit : suitable_physical_device d = false := by
          simp [suitable_physical_device, h2]
        simp only [h2, Bool.not_false, if_true, ih]
        simp [survivor_entries, List.filter_cons, hsuit]
    · rw [Bool.not_eq_true] at h1
      have hsuit : suitable_physical_device d = false := by
        simp [suitable_physical_device, h1]
      simp only [h1, Bool.not_false, if_true, ih]
      simp [survivor_entries, List.filter_cons, hsuit]

theorem multimap_insert_desc_length (key : Int) (dev : PhysicalDevice) :
    ∀ (l : List (Int × PhysicalDevice)),
      (multimap_insert_desc key dev l).length = l.length + 1 := by
  intro l
  induction l with
  | nil => rfl
  | cons e rest ih =>
    obtain ⟨k, d⟩ := e
    simp only [multimap_insert_desc]
    split <;> simp [ih]

theorem rankings_fold_length :
    ∀ (es acc : List (Int × PhysicalDevice)),
      (rankings_fold es acc).length = es.length + acc.length := by
  intro es
  induction es with
  | nil => intro acc; simp [rankings_fold]
  | cons e rest ih =>
    intro acc
    simp only [rankings_fold, List.length_cons]
    rw [ih, multimap_insert_desc_length]
    omega

theorem multimap_insert_desc_mem (key : Int) (dev : PhysicalDevice) :
    ∀ (l : List (Int × PhysicalDevice)) (e : Int × PhysicalDevice),
      e ∈ multimap_insert_desc key dev l ↔ e = (key, dev) ∨ e ∈ l := by
  intro l
  induction l with
  | nil => intro e; simp [multimap_insert_desc]
  | cons x rest ih =>
    intro e
    obtain ⟨k, d⟩ := x
    simp only [multimap_insert_desc]
    split
    · simp only [List.mem_cons]
    · simp only [List.mem_cons, ih]
      tauto

theorem rankings_fold_mem :
    ∀ (es acc : List (Int × PhysicalDevice)) (e : Int × PhysicalDevice),
      e ∈ rankings_fold es acc ↔ e ∈ es ∨ e ∈ acc := by
  intro es
  induction es with
  | nil => intro acc e; simp [rankings_fold]
  | cons x rest ih =>
    intro acc e
    simp only [rankings_fold, ih, multimap_insert_desc_mem, List.mem_cons]
    tauto

theorem rank_better_assoc (a b c : Int × PhysicalDevice) :
    rank_better (rank_better a b) c = rank_better a (rank_better b c) := by
  simp only [rank_better]
  split_ifs <;> first | rfl | omega

theorem rank_obetter_assoc (x y z : Option (Int × PhysicalDevice)) :
    rank_obetter (rank_obetter x y) z = rank_obetter x (rank_obetter y z) := by
  cases x <;> cases y <;> cases z <;> simp [rank_obetter, rank_better_assoc]

theorem rank_obetter_none_right (x : Option (Int × PhysicalDevice)) :
    rank_obetter x none = x := by
  cases x <;> rfl

theorem multimap_insert_desc_head (key : Int) (dev : PhysicalDevice) :
    ∀ (l : List (Int × PhysicalDevice)),
      (multimap_insert_desc key dev l).head? = rank_obetter l.head? (some (key, dev)) := by
  intro l
  induction l with
  | nil => rfl
  | cons e rest ih =>
    obtain ⟨k, d⟩ := e
    simp only [multimap_insert_desc]
    split
    · simp only [List.head?_cons, rank_obetter, rank_better]
      split <;> simp_all
    · simp only [List.head?_cons, rank_obetter, rank_better]
      split <;> simp_all

theorem rankings_fold_head :
    ∀ (es acc : List (Int × PhysicalDevice)),
      (rankings_fold es acc).head? = rank_obetter acc.head? (firstMaxEntry es) := by
  intro es
  induction es with
  | nil => intro acc; simp [rankings_fold, firstMaxEntry, rank_obetter_none_right]
  | cons e rest ih =>
    intro acc
    simp only [rankings_fold, firstMaxEntry]
    rw [ih, multimap_insert_desc_head, rank_obetter_assoc]

theorem firstMaxEntry_eq_none :
    ∀ (es : List (Int × PhysicalDevice)), firstMaxEntry es = none ↔ es = [] := by
  intro es
  cases es with
  | nil => simp [firstMaxEntry]
  | cons e rest =>
    simp only [firstMaxEntry]
    cases firstMaxEntry rest <;> simp [rank_obetter]

theorem firstMaxEntry_spec :
    ∀ (es : List (Int × PhysicalDevice)) (m : Int × PhysicalDevice),
      firstMaxEntry es = some m → m ∈ es ∧ ∀ e ∈ es, e.1 ≤ m.1 := by
  intro es
  induction es with
  | nil => intro m h; simp [firstMaxEntry] at h
  | cons e rest ih =>
    intro m h
    simp only [firstMaxEntry] at h
    cases hr : firstMaxEntry rest with
    | none =>
      have hrest : rest = [] := (firstMaxEntry_eq_none rest).mp hr
      rw [hr] at h
      simp only [rank_obetter, Option.some_inj] at h
      subst h
      simp [hrest]
    | some m0 =>
      rw [hr] at h
      simp only [rank_obetter, Option.some_inj] at h
      obtain ⟨hm0, hb0⟩ := ih m0 hr
      by_cases hlt : e.1 < m0.1
      · have hm : m = m0 := by rw [← h]; simp [rank_better, hlt]
        subst hm
        refine ⟨List.mem_cons_of_mem _ hm0, ?_⟩
        intro x hx
        rcases List.mem_cons.mp hx with hx | hx
        · subst hx; omega
        · exact hb0 x hx
      · have hm : m = e := by rw [← h]; simp [rank_better, hlt]
        subst hm
        refine ⟨List.mem_cons_self _ _, ?_⟩
        intro x hx
        rcases List.mem_cons.mp hx with hx | hx
        · subst hx; omega
        · have := hb0 x hx; omega

theorem firstMaxEntry_find :
    ∀ (es : List (Int × PhysicalDevice)) (m : Int × PhysicalDevice),
      firstMaxEntry es = some m →
      es.find? (fun e => decide (m.1 ≤ e.1)) = some m := by
  intro es
  induction es with
  | nil => intro m h; simp [firstMaxEntry] at h
  | cons e rest ih =>
    intro m h
    simp only [firstMaxEntry] at h
    cases hr : firstMaxEntry rest with
    | none =>
      rw [hr] at h
      simp only [rank_obetter, Option.some_inj] at h
      subst h
      simp [List.find?]
    | some m0 =>
      rw [hr] at h
      simp only [rank_obetter, Option.some_inj] at h
      by_cases hlt : e.1 < m0.1
      · have hm : m = m0 := by rw [← h]; simp [rank_better, hlt]
        rw [hm]
        have hpred : (decide (m0.1 ≤ e.1)) = false := by
          simp only [decide_eq_false_iff_not]
          omega
        simp only [List.find?, hpred]
        exact ih m0 hr
      · have hm : m = e := by rw [← h]; simp [rank_better, hlt]
        rw [hm]
        have hpred : (decide (e.1 ≤ e.1)) = true := by simp
        simp [List.find?, hpred]

theorem find_map_rank (l : List PhysicalDevice) (p : Int × PhysicalDevice → Bool) :
    (l.map (fun d => (device_rank d, d))).find? p
      = (l.find? (fun d => p (device_rank d, d))).map (fun d => (device_rank d, d)) := by
  induction l with
  | nil => rfl
  | cons d rest ih =>
    simp only [List.map_cons, List.find?]
    cases hp : p (device_rank d, d) <;> simp [hp, ih]

theorem select_error_iff_table_nil (devices : List PhysicalDevice) :
    (∃ msg, select_vulkan_physical_device devices = Except.error msg) ↔
      (select_scan devices initSelectScanState).physicalDeviceRankings = [] := by
  simp only [select_vulkan_physical_device]
  cases h : (select_scan devices initSelectScanState).physicalDeviceRankings with
  | nil => simp
  | cons e t =>
    obtain ⟨k, d⟩ := e
    simp

theorem table_entry_suitable (devices : List PhysicalDevice) :
    ∀ e ∈ (select_scan devices initSelectScanState).physicalDeviceRankings,
      suitable_physical_device e.2 = true ∧ e.1 = device_rank e.2 := by
  intro e he
  rw [select_scan_rankings] at he
  have hmem : e ∈ survivor_entries devices := by
    rcases (rankings_fold_mem _ _ e).mp he with h | h
    · exact h
    · simp [initSelectScanState] at h
  simp only [survivor_entries, List.mem_map] at hmem
  obtain ⟨d, hd, rfl⟩ := hmem
  exact ⟨(List.mem_filter.mp hd).2, rfl⟩

/-- Claim C2: `select_vulkan_physical_device` fails with the
no-suitable-device error precisely when no candidate passes all five hard
filters; every entry of the ranked table (hence also the selected device)
reports all four required feature flags true — the filtering is
conjunctive. -/
theorem c2_no_suitable_device_error_iff (devices : List PhysicalDevice) :
    ((∃ msg, select_vulkan_physical_device devices = Except.error msg) ↔
      ∀ d ∈ devices, suitable_physical_device d = false)
    ∧ (∀ e ∈ (select_scan devices initSelectScanState).physicalDeviceRankings,
        passes_required_features_filter e.2 = true)
    ∧ (∀ sel, select_vulkan_physical_device devices = Except.ok sel →
        passes_required_features_filter sel.physicalDevice = true) := by
  have hfeat : ∀ e ∈ (select_scan devices initSelectScanState).physicalDeviceRankings,
      passes_required_features_filter e.2 = true := by
    intro e he
    have hsuit := (table_entry_suitable devices e he).1
    simp only [suitable_physical_device, Bool.and_eq_true] at hsuit
    exact hsuit.1.1.1.1.2
  refine ⟨?_, hfeat, ?_⟩
  · rw [select_error_iff_table_nil, select_scan_rankings]
    constructor
    · intro h
      have hlen := rankings_fold_length (survivor_entries devices)
        initSelectScanState.physicalDeviceRankings
      rw [h] at hlen
      have hnil : survivor_entries devices = [] := by
        have hz : (survivor_entries devices).length = 0 := by
          simpa [initSelectScanState] using hlen.symm
        exact List.length_eq_zero.mp hz
      have hfil : devices.filter suitable_physical_device = [] := by
        simpa [survivor_entries, List.map_eq_nil_iff] using hnil
      intro d hd
      have := List.filter_eq_nil_iff.mp hfil d hd
      simpa using this
    · intro h
      have hfil : devices.filter suitable_physical_device = [] := by
        rw [List.filter_eq_nil_iff]
        intro d hd
        simp [h d hd]
      simp [survivor_entries, hfil, rankings_fold, initSelectScanState]
  · intro sel hsel
    simp only [select_vulkan_physical_device] at hsel
    cases h : (select_scan devices initSelectScanState).physicalDeviceRankings with
    | nil => rw [h] at hsel; simp at hsel
    | cons e t =>
      obtain ⟨k, d⟩ := e
      rw [h] at hsel
      simp only [Except.ok.injEq] at hsel
      have hd : passes_required_features_filter d = true := by
        have := hfeat (k, d) (by rw [h]; exact List.mem_cons_self _ _)
        simpa using this
      rw [← hsel]
      simpa using hd

/-- Witness for `c2_no_suitable_device_error_iff`: a device missing the one
feature flag is filtered out and selection fails with the error. -/
theorem c2_witness : ∃ msg, select_vulkan_physical_device [c2BadDevice] = Except.error msg :=
  (c2_no_suitable_device_error_iff [c2BadDevice]).1.mpr (by decide)

/-- Claim C6: with at least one surviving candidate, selection succeeds and
returns a device of maximal score among all survivors; among survivors of
maximal score the first-enumerated one is chosen (`find?` of the first
survivor whose score reaches the selected score returns the selected
device); and a discrete GPU scores exactly 100 more than any non-discrete
device. -/
theorem c6_selected_is_first_max (devices : List PhysicalDevice)
    (h : devices.filter suitable_physical_device ≠ []) :
    ∃ sel, select_vulkan_physical_device devices = Except.ok sel
      ∧ (∀ d ∈ devices.filter suitable_physical_device,
          device_rank d ≤ device_rank sel.physicalDevice)
      ∧ (devices.filter suitable_physical_device).find?
          (fun d => decide (device_rank sel.physicalDevice ≤ device_rank d))
          = some sel.physicalDevice
      ∧ (∀ a b : PhysicalDevice, a.deviceType = VkPhysicalDeviceType.discreteGpu →
          b.deviceType ≠ VkPhysicalDeviceType.discreteGpu →
          device_rank b + 100 = device_rank a) := by
  have hentries : survivor_entries devices ≠ [] := by
    simp [survivor_entries, List.map_eq_nil_iff, h]
  obtain ⟨m, hm⟩ : ∃ m, firstMaxEntry (survivor_entries devices) = some m := by
    cases hfm : firstMaxEntry (survivor_entries devices) with
    | none => exact absurd ((firstMaxEntry_eq_none _).mp hfm) hentries
    | some m => exact ⟨m, rfl⟩
  have hhead : (select_scan devices initSelectScanState).physicalDeviceRankings.head?
      = some m := by
    rw [select_scan_rankings, rankings_fold_head, hm]
    simp [initSelectScanState, rank_obetter]
  obtain ⟨tl, htab⟩ : ∃ tl,
      (select_scan devices initSelectScanState).physicalDeviceRankings = m :: tl := by
    cases htab : (select_scan devices initSelectScanState).physicalDeviceRankings with
    | nil => rw [htab] at hhead; simp at hhead
    | cons x tl =>
      rw [htab] at hhead
      simp only [List.head?_cons, Option.some_inj] at hhead
      exact ⟨tl, by rw [hhead]⟩
  obtain ⟨hmem, hmax⟩ := firstMaxEntry_spec _ m hm
  have hform := table_entry_suitable devices m (by rw [htab]; exact List.mem_cons_self _ _)
  have hkey : m.1 = device_rank m.2 := hform.2
  refine ⟨{ physicalDevice := m.2,
            queueFamilyIndices := (select_scan devices initSelectScanState).queueFamilyIndices,
            swapChainSupportDetails :=
              (select_scan devices initSelectScanState).swapchainSupportDetails },
          ?_, ?_, ?_, ?_⟩
  · obtain ⟨mk, md⟩ := m
    simp only [select_vulkan_physical_device]
    rw [htab]
  · intro d hd
    have hin : (device_rank d, d) ∈ survivor_entries devices := by
      simp only [survivor_entries, List.mem_map]
      exact ⟨d, hd, rfl⟩
    have := hmax _ hin
    simpa [hkey] using this
  · show (devices.filter suitable_physical_device).find?
        (fun d => decide (device_rank m.2 ≤ device_rank d)) = some m.2
    have hfind := firstMaxEntry_find _ m hm
    rw [survivor_entries, find_map_rank] at hfind
    rcases Option.map_eq_some'.mp hfind with ⟨d0, hd0, hd0m⟩
    have hd0' : (devices.filter suitable_physical_device).find?
        (fun d => decide (m.1 ≤ device_rank d)) = some d0 := by
      simpa using hd0
    have hd0eq : d0 = m.2 := by
      simpa using congrArg Prod.snd hd0m
    simp only [← hkey]
    rw [← hd0eq]
    exact hd0'
  · intro a b ha hb
    simp [device_rank, ha, hb]

/-- Claim C1, evaluation at the failing input: with two survivors, the
higher-ranked first device is selected, but the stored queue-family indices
and surface snapshot are those of the SECOND (last examined) candidate:
the loop-local variables are overwritten per candidate and never re-derived
for the selected device. -/
theorem c1_selection_stores_last_examined_details :
    select_vulkan_physical_device [c1DeviceA, c1DeviceB]
      = Except.ok
          { physicalDevice := c1DeviceA,
            queueFamilyIndices :=
              { graphicsFamily := some 1, presentationFamily := some 0,
                transferFamily := some 0 },
            swapChainSupportDetails := c1DeviceB.swapchainSupport }
    ∧ find_required_queue_families c1DeviceA.queueFamilies m_useDedicatedTransferQueueFamily
        = { graphicsFamily := some 0, presentationFamily := some 0, transferFamily := some 0 }
    ∧ ({ graphicsFamily := some 1, presentationFamily := some 0,
         transferFamily := some 0 } : QueueFamilyIndices)
        ≠ { graphicsFamily := some 0, presentationFamily := some 0, transferFamily := some 0 }
    ∧ c1DeviceB.swapchainSupport ≠ c1DeviceA.swapchainSupport := by
  refine ⟨rfl, by decide, by decide, by decide⟩

/-- Claim C3, evaluation at the failing input: version 2.0.0 has major
component 2 > 1 (so it is at or above 1.3 in proper component-wise
ordering), yet the filter `major < 1 || minor < 3` rejects it (its minor
component 0 is below 3), and an otherwise perfect device reporting it is
filtered out entirely. -/
theorem c3_version_filter_rejects_major_two :
    1 < VK_VERSION_MAJOR (VK_MAKE_VERSION 2 0 0)
    ∧ passes_api_version_filter (VK_MAKE_VERSION 2 0 0) = false
    ∧ select_vulkan_physical_device [c3Device]
        = Except.error "RUNTIME ERROR: Failed to find a suitable Physical Device!" := by
  refine ⟨by decide, by decide, rfl⟩

theorem surface_format_scan_eq (l : List VkSurfaceFormatKHR) :
    surface_format_scan l =
      if preferred_surface_format ∈ l then some preferred_surface_format else none := by
  induction l with
  | nil => simp [surface_format_scan]
  | cons x rest ih =>
    obtain ⟨xf, xc⟩ := x
    cases xf <;> cases xc <;>
      simp [surface_format_scan, List.mem_cons, ih, preferred_surface_format]

/-- Claim C8: for a non-empty surface-format list, the chosen format is the
preferred 8-bit BGRA + sRGB-non-linear pair when it occurs in the list, and
the first listed format otherwise. -/
theorem c8_surface_format_choice (surfaceFormats : List VkSurfaceFormatKHR)
    (h : surfaceFormats ≠ []) :
    (preferred_surface_format ∈ surfaceFormats →
      choose_swapchain_surface_format surfaceFormats = Except.ok preferred_surface_format)
    ∧ (preferred_surface_format ∉ surfaceFormats →
      choose_swapchain_surface_format surfaceFormats = Except.ok (surfaceFormats.head h)) := by
  constructor
  · intro hmem
    simp [choose_swapchain_surface_format, surface_format_scan_eq, hmem]
  · intro hmem
    cases surfaceFormats with
    | nil => exact absurd rfl h
    | cons x rest =>
      simp [choose_swapchain_surface_format, surface_format_scan_eq, hmem]

/-- Witness for `c8_surface_format_choice` at the spec's two examples: the
second entry (the exact match) is chosen from the two-element list, and the
sole entry is chosen from the singleton list. -/
theorem c8_witness :
    choose_swapchain_surface_format c8ExampleA
      = Except.ok { format := VkFormat.b8g8r8a8Unorm,
                    colorSpace := VkColorSpaceKHR.srgbNonlinear }
    ∧ choose_swapchain_surface_format c8ExampleB
      = Except.ok { format := VkFormat.r8g8b8a8Unorm,
                    colorSpace := VkColorSpaceKHR.srgbNonlinear } :=
  ⟨(c8_surface_format_choice c8ExampleA (by decide)).1 (by decide),
   (c8_surface_format_choice c8ExampleB (by decide)).2 (by decide)⟩

/-- Claim C9, counterexample to unreachability: selection succeeds (the
first device survives), yet the snapshot stored for swapchain creation is
the LAST-examined candidate's — here one with zero surface formats — so
`choose_swapchain_surface_format` on the stored snapshot reaches the
`.at(0)` throw even though the selected device passed the surface-adequacy
filter. -/
theorem c9_counterexample :
    select_vulkan_physical_device [c9DeviceA, c9DeviceB]
      = Except.ok
          { physicalDevice := c9DeviceA,
            queueFamilyIndices :=
              { graphicsFamily := some 0, presentationFamily := some 0,
                transferFamily := some 0 },
            swapChainSupportDetails := c9DeviceB.swapchainSupport }
    ∧ c9DeviceB.swapchainSupport.surfaceFormats = []
    ∧ choose_swapchain_surface_format c9DeviceB.swapchainSupport.surfaceFormats
        = Except.error "std::out_of_range in vector::at" := by
  refine ⟨rfl, rfl, rfl⟩

/-- Claim C9 (amended): `choose_swapchain_surface_format` throws
(`std::out_of_range` from `.at(0)`) exactly on the empty format list, and
returns a format on every non-empty list — so the throw is unreachable
whenever the snapshot it is given has at least one format (which the
surface-adequacy filter guarantees for the SELECTED device's own snapshot,
though not for the stored last-examined snapshot). -/
theorem c9_empty_throws_nonempty_ok :
    choose_swapchain_surface_format ([] : List VkSurfaceFormatKHR)
        = Except.error "std::out_of_range in vector::at"
    ∧ ∀ (l : List VkSurfaceFormatKHR), l ≠ [] →
        ∃ sf, choose_swapchain_surface_format l = Except.ok sf := by
  refine ⟨rfl, ?_⟩
  intro l hl
  cases hscan : surface_format_scan l with
  | some sf => exact ⟨sf, by simp [choose_swapchain_surface_format, hscan]⟩
  | none =>
    cases l with
    | nil => exact absurd rfl hl
    | cons x rest => exact ⟨x, by simp [choose_swapchain_surface_format, hscan]⟩

/-- Witness for `c9_empty_throws_nonempty_ok` at a concrete non-empty
list. -/
theorem c9_witness :
    ∃ sf, choose_swapchain_surface_format
        [{ format := VkFormat.b8g8r8a8Unorm, colorSpace := VkColorSpaceKHR.srgbNonlinear }]
      = Except.ok sf :=
  c9_empty_throws_nonempty_ok.2 _ (by decide)

/-- Claim C7, evaluation: the two in-range examples hold (min=2,max=8 gives
3; min=2,max=2 gives 2), but for the Vulkan "unbounded" sentinel
maxImageCount = 0 the code has no special case: it calls `std::clamp` with
hi = 0 < lo = 2 (violating the clamp precondition) and the reference
implementation yields 0, not the claimed minImageCount + 1 = 3. -/
theorem c7_image_count_eval :
    swapchain_image_count { minImageCount := 2, maxImageCount := 8 } = 3
    ∧ swapchain_image_count { minImageCount := 2, maxImageCount := 2 } = 2
    ∧ swapchain_image_count { minImageCount := 2, maxImageCount := 0 } = 0
    ∧ ({ minImageCount := 2, maxImageCount := 0 } : VkSurfaceCapabilitiesKHR).maxImageCount
        < ({ minImageCount := 2, maxImageCount := 0 } : VkSurfaceCapabilitiesKHR).minImageCount := by
  refine ⟨by decide, by decide, by decide, by decide⟩

/-- Claim C10: if `m_isInitialized` is false, `cleanup` performs no
destroying call at all, leaves every engine field unchanged, and only
resets the process-wide singleton pointer to null. -/
theorem c10_cleanup_uninitialized_noop (p : EngineProcess)
    (h : p.engine.m_isInitialized = false) :
    (cleanup p).2 = []
    ∧ (cleanup p).1.engine = p.engine
    ∧ (cleanup p).1.loadedEngine = false := by
  simp [cleanup, h]

/-- Witness for `c10_cleanup_uninitialized_noop` at a concrete
uninitialized engine. -/
theorem c10_witness :
    (cleanup c10Process).2 = []
    ∧ (cleanup c10Process).1.engine = c10Process.engine
    ∧ (cleanup c10Process).1.loadedEngine = false :=
  c10_cleanup_uninitialized_noop c10Process rfl

/-- Witness for `c6_selected_is_first_max` at a two-survivor tie: both
devices score 0 and the conclusion holds, the selected device being the
first enumerated of the maximal-score survivors. -/
theorem c6_witness :
    ∃ sel, select_vulkan_physical_device [c6DeviceA, c6DeviceB] = Except.ok sel
      ∧ (∀ d ∈ [c6DeviceA, c6DeviceB].filter suitable_physical_device,
          device_rank d ≤ device_rank sel.physicalDevice)
      ∧ ([c6DeviceA, c6DeviceB].filter suitable_physical_device).find?
          (fun d => decide (device_rank sel.physicalDevice ≤ device_rank d))
          = some sel.physicalDevice
      ∧ (∀ a b : PhysicalDevice, a.deviceType = VkPhysicalDeviceType.discreteGpu →
          b.deviceType ≠ VkPhysicalDeviceType.discreteGpu →
          device_rank b + 100 = device_rank a) :=
  c6_selected_is_first_max [c6DeviceA, c6DeviceB] (by decide)

end VkEngine
